import Mathlib

/-!
Shallow embedding of the `adma_geo` filemanager publish-and-reconcile pipeline
(gis_utils.py, geoserver_manager.py, geoserver_layer_group_manager.py,
tasks.py, map_views.py, models.py), with theorems settling the spec claims.

Strings are modelled as lists of characters (`Str`), with the Python string
operations the source uses (`replace`, `startswith`, `in`, `isdigit`,
`split`, `endswith`, `lower`) defined over them.
-/

namespace AdmaGeo

abbrev Str := List Char

/-- Python `s.isdigit()`: nonempty and all digit characters. -/
def pyIsDigit (s : Str) : Bool := !s.isEmpty && s.all Char.isDigit

/-- Numeric value of a digit string, as Python `int(s)` on an `isdigit` string. -/
def digitsToNat (s : Str) : Nat := s.foldl (fun acc c => 10 * acc + (c.toNat - 48)) 0

/-- Worker for `strReplace`; the fuel argument (instantiated with the string
length, enough since every step consumes at least one character) makes the
recursion structural so that it reduces in the kernel. -/
def strReplaceFuel (pat rep : Str) : Nat → Str → Str
  | _, [] => []
  | 0, s => s
  | fuel + 1, c :: cs =>
    if pat ≠ [] ∧ pat.isPrefixOf (c :: cs) then
      rep ++ strReplaceFuel pat rep fuel (cs.drop (pat.length - 1))
    else
      c :: strReplaceFuel pat rep fuel cs

/-- Python `s.replace(pat, rep)`: replace non-overlapping occurrences left to
right. The source only calls it with a nonempty `pat`; an empty `pat` is a
no-op here. -/
def strReplace (pat rep s : Str) : Str := strReplaceFuel pat rep s.length s

/-- Python `needle in hay` (substring containment). -/
def strContains : Str → Str → Bool
  | [], needle => needle.isEmpty
  | c :: cs, needle => needle.isPrefixOf (c :: cs) || strContains cs needle

/-- Python `s.lower()` (per character). -/
def lowerStr (s : Str) : Str := s.map Char.toLower

/-! ## Python tuple ordering

`numbered_layers.sort(reverse=True)` sorts `(int, str)` tuples by the
lexicographic order: first component numerically, ties broken by code-point
lexicographic string comparison.  `keyGe a b` says `a` sorts no later than `b`
in the descending sort. -/

/-- Python `<=` on strings: code-point lexicographic. -/
def strLe : Str → Str → Bool
  | [], _ => true
  | _ :: _, [] => false
  | a :: as, b :: bs => a.toNat < b.toNat || (a.toNat = b.toNat && strLe as bs)

theorem strLe_refl : ∀ s : Str, strLe s s = true := by
  intro s
  induction s with
  | nil => rfl
  | cons a as ih => simp [strLe, ih]

theorem strLe_total : ∀ a b : Str, strLe a b = true ∨ strLe b a = true := by
  intro a
  induction a with
  | nil => intro b; left; cases b <;> rfl
  | cons x xs ih =>
    intro b
    cases b with
    | nil => right; rfl
    | cons y ys =>
      rcases Nat.lt_trichotomy x.toNat y.toNat with h | h | h
      · left; simp [strLe, h]
      · rcases ih ys with h2 | h2
        · left; simp [strLe, h, h2]
        · right; simp [strLe, h.symm, h2]
      · right; simp [strLe, h]

theorem strLe_trans : ∀ a b c : Str,
    strLe a b = true → strLe b c = true → strLe a c = true := by
  intro a
  induction a with
  | nil => intro b c _ _; rfl
  | cons x xs ih =>
    intro b c hab hbc
    cases b with
    | nil => simp [strLe] at hab
    | cons y ys =>
      cases c with
      | nil => simp [strLe] at hbc
      | cons z zs =>
        simp only [strLe, Bool.or_eq_true, Bool.and_eq_true, decide_eq_true_eq] at hab hbc ⊢
        rcases hab with h1 | ⟨h1, h1'⟩ <;> rcases hbc with h2 | ⟨h2, h2'⟩
        · left; omega
        · left; omega
        · left; omega
        · right; exact ⟨by omega, ih ys zs h1' h2'⟩

/-- `a` sorts no later than `b` in the descending Python tuple sort:
`a ≥ b` lexicographically on `(Nat, Str)`. -/
def keyGe (a b : Nat × Str) : Bool :=
  decide (b.1 < a.1) || (decide (a.1 = b.1) && strLe b.2 a.2)

/-- The same relation as a `Prop`, for `List.insertionSort`. -/
def KeyGeR (a b : Nat × Str) : Prop := keyGe a b = true

instance : DecidableRel KeyGeR := fun a b =>
  inferInstanceAs (Decidable (keyGe a b = true))

theorem keyGe_refl (a : Nat × Str) : keyGe a a = true := by
  simp [keyGe, strLe_refl]

instance : IsTotal (Nat × Str) KeyGeR := by
  constructor
  intro a b
  unfold KeyGeR
  simp only [keyGe, Bool.or_eq_true, Bool.and_eq_true, decide_eq_true_eq]
  rcases Nat.lt_trichotomy a.1 b.1 with h | h | h
  · right; left; exact h
  · rcases strLe_total a.2 b.2 with h2 | h2
    · right; right; exact ⟨h.symm, h2⟩
    · left; right; exact ⟨h, h2⟩
  · left; left; exact h

instance : IsTrans (Nat × Str) KeyGeR := by
  constructor
  intro a b c hab hbc
  unfold KeyGeR at *
  simp only [keyGe, Bool.or_eq_true, Bool.and_eq_true, decide_eq_true_eq] at hab hbc ⊢
  rcases hab with h1 | ⟨h1, h1'⟩ <;> rcases hbc with h2 | ⟨h2, h2'⟩
  · left; omega
  · left; omega
  · left; omega
  · right; exact ⟨by omega, strLe_trans c.2 b.2 a.2 h2' h1'⟩

/-! ## Reconciler: legacy WMS-capabilities ranking

Embedding of the layer-name auto-numbering detection in
`publish_to_geoserver_legacy` (gis_utils.py 526-568) and
`bundle_and_publish_shapefile_legacy` (gis_utils.py 699-742); the two blocks
are identical. -/

/-- Source filter `[layer for layer in wms_layers if original_shp_name in
layer and layer.startswith(f'{workspace}:')]`. -/
def similarLayers (workspace base : Str) (wmsLayers : List Str) : List Str :=
  wmsLayers.filter (fun l =>
    strContains l base && (workspace ++ (":".data)).isPrefixOf l)

/-- Source expression `layer.replace(f'{workspace}:', '')`. -/
def stripWorkspace (workspace l : Str) : Str :=
  strReplace (workspace ++ (":".data)) [] l

/-- Rank assigned to one workspace-stripped candidate: the exact base name
gets 0; a parseable all-digit trailing remainder gets its numeric value; any
other remainder gets the fixed value 999. -/
def rankCandidate (base name : Str) : Nat × Str :=
  if name = base then (0, name)
  else
    let suffix := strReplace base [] name
    if pyIsDigit suffix then (digitsToNat suffix, name) else (999, name)

/-- The `numbered_layers` list built by the source. -/
def rankedCandidates (workspace base : Str) (wmsLayers : List Str) :
    List (Nat × Str) :=
  (similarLayers workspace base wmsLayers).map
    (fun l => rankCandidate base (stripWorkspace workspace l))

/-- Source lines `numbered_layers.sort(reverse=True)` followed by
`actual_layer_name = numbered_layers[0][1]`, falling back to the base name
when no similar layer is listed. -/
def detectActualLayerName (workspace base : Str) (wmsLayers : List Str) : Str :=
  if rankedCandidates workspace base wmsLayers = [] then base
  else (((rankedCandidates workspace base wmsLayers).insertionSort KeyGeR).headD
    (0, base)).2

/-- Head of the descending sort is a `keyGe`-maximum of the original list. -/
theorem headD_insertionSort_max (l : List (Nat × Str)) (d : Nat × Str)
    (hl : l ≠ []) :
    (l.insertionSort KeyGeR).headD d ∈ l ∧
    ∀ e ∈ l, keyGe ((l.insertionSort KeyGeR).headD d) e = true := by
  have hperm := List.perm_insertionSort KeyGeR l
  have hsorted := List.sorted_insertionSort KeyGeR l
  cases hs : l.insertionSort KeyGeR with
  | nil =>
    rw [hs] at hperm
    exact absurd (hperm.symm.eq_nil) hl
  | cons a t =>
    rw [hs] at hperm hsorted
    simp only [List.headD_cons]
    constructor
    · exact hperm.mem_iff.mp (List.mem_cons_self a t)
    · intro e he
      rcases List.mem_cons.mp (hperm.symm.mem_iff.mp he) with heq | htail
      · rw [heq]
        exact keyGe_refl _
      · exact (List.pairwise_cons.mp hsorted).1 e htail

/-! ## Reconciler: WMS probing in the systematic publish path

Embedding of `SystematicGeoServerManager._verify_shapefile_creation`
(geoserver_manager.py 282-312): test the expected name first, then the
auto-numbered variations 1..9 in increasing order, returning the first name
for which the WMS `GetMap` probe works. -/

/-- Decimal digits of a number, as appended by the f-string
`f"{expected_name}{i}"`. -/
def natSuffix (n : Nat) : Str := Nat.toDigits 10 n

/-- Embedding of `_verify_shapefile_creation`; `layerWorks` abstracts the
`_test_layer_exists` WMS probe.  The source returns the name twice (layer and
datastore); both components are this value. -/
def verifyShapefileCreation (layerWorks : Str → Bool) (expected : Str) :
    Option Str :=
  if layerWorks expected then some expected
  else
    (List.range' 1 9).findSome? (fun i =>
      if layerWorks (expected ++ natSuffix i) then some (expected ++ natSuffix i)
      else none)

/-- Any name returned by the probing loop indeed passed the probe. -/
theorem findSome_probe_sound (layerWorks : Str → Bool) (expected : Str) :
    ∀ (l : List Nat) (n : Str),
      l.findSome? (fun i =>
        if layerWorks (expected ++ natSuffix i) then
          some (expected ++ natSuffix i)
        else none) = some n →
      layerWorks n = true := by
  intro l
  induction l with
  | nil => intro n h; simp [List.findSome?] at h
  | cons i is ih =>
    intro n h
    rw [List.findSome?_cons] at h
    by_cases hi : layerWorks (expected ++ natSuffix i) = true
    · simp only [hi, if_pos] at h
      cases h
      exact hi
    · simp only [Bool.not_eq_true] at hi
      simp only [hi, Bool.false_eq_true, if_neg, if_false] at h
      exact ih n h

/-- Any name returned by `_verify_shapefile_creation` passed the WMS probe. -/
theorem verifyShapefileCreation_sound (layerWorks : Str → Bool)
    (expected n : Str) (h : verifyShapefileCreation layerWorks expected = some n) :
    layerWorks n = true := by
  unfold verifyShapefileCreation at h
  by_cases he : layerWorks expected = true
  · rw [if_pos he] at h
    cases h
    exact he
  · simp only [Bool.not_eq_true] at he
    rw [he] at h
    simp only [Bool.false_eq_true, if_false] at h
    exact findSome_probe_sound layerWorks expected _ n h

/-! ## Claims C1 and C2 -/

/-- Concrete WMS listing for the C1 counterexample: the exact candidate and a
candidate with non-numeric trailing content. -/
def c1Listing : List Str := ["ws:base".data, "ws:baseX".data]

/-- C1 (corrected claim): in the legacy reconcilers every candidate whose
trailing content is neither empty nor all digits is assigned the fixed rank
999 (the highest tier short of numeric suffixes of value at least 999), the
exact match is assigned rank 0, a parseable numeric suffix its value, and the
returned candidate is a maximum of the ranked candidates in the descending
tuple order — so non-numeric trailing content is a top-priority candidate,
not a low-priority fallback. -/
theorem adma_c1_theorem (workspace base : Str) (wmsLayers : List Str)
    (h : rankedCandidates workspace base wmsLayers ≠ []) :
    (∃ e ∈ rankedCandidates workspace base wmsLayers,
        detectActualLayerName workspace base wmsLayers = e.2 ∧
        ∀ e2 ∈ rankedCandidates workspace base wmsLayers, keyGe e e2 = true) ∧
    (∀ name : Str, name ≠ base → pyIsDigit (strReplace base [] name) = false →
        rankCandidate base name = (999, name)) ∧
    rankCandidate base base = (0, base) ∧
    (∀ name : Str, name ≠ base → pyIsDigit (strReplace base [] name) = true →
        rankCandidate base name = (digitsToNat (strReplace base [] name), name)) := by
  refine ⟨?_, ?_, ?_, ?_⟩
  · obtain ⟨hmem, hmax⟩ :=
      headD_insertionSort_max (rankedCandidates workspace base wmsLayers) (0, base) h
    refine ⟨_, hmem, ?_, hmax⟩
    unfold detectActualLayerName
    rw [if_neg h]
  · intro name hne hnd
    unfold rankCandidate
    rw [if_neg hne, if_neg (by simp [hnd])]
  · unfold rankCandidate
    rw [if_pos rfl]
  · intro name hne hd
    unfold rankCandidate
    rw [if_neg hne, if_pos (by simp [hd])]

/-- Witness for C1: the amended theorem applied to the concrete listing
holding an exact match and a non-numeric-suffix candidate. -/
theorem adma_c1_witness :
    ∃ e ∈ rankedCandidates ("ws".data) ("base".data) c1Listing,
      detectActualLayerName ("ws".data) ("base".data) c1Listing = e.2 ∧
      ∀ e2 ∈ rankedCandidates ("ws".data) ("base".data) c1Listing,
        keyGe e e2 = true :=
  (adma_c1_theorem ("ws".data) ("base".data) c1Listing (by decide)).1

/-- Counterexample to C1 as stated: the listing contains the exact match
`ws:base`, yet the legacy reconciler returns `baseX`, whose trailing content
is not a parseable numeric suffix — the non-numeric candidate is preferred
over the exact match, not used only as a last-resort fallback. -/
theorem adma_c1_counterexample :
    detectActualLayerName ("ws".data) ("base".data) c1Listing = ("baseX".data) ∧
    ("ws:base".data) ∈ c1Listing ∧
    stripWorkspace ("ws".data) ("ws:base".data) = ("base".data) ∧
    pyIsDigit (strReplace ("base".data) [] ("baseX".data)) = false ∧
    ("baseX".data) ≠ ("base".data) := by decide

/-- Workspace in the C2 scenario. -/
def c2Workspace : Str := "adma_geo".data

/-- Systematic base name in the C2 scenario. -/
def c2Base : Str := "base".data

/-- The C2 listing as it appears in WMS capabilities (workspace-qualified). -/
def c2WmsListing : List Str :=
  ["adma_geo:base".data, "adma_geo:base1".data, "adma_geo:base2".data,
   "adma_geo:base5".data]

/-- The C2 listing as bare layer names, i.e. the set of names for which the
WMS probe of `_test_layer_exists` succeeds. -/
def c2Listing : List Str :=
  ["base".data, "base1".data, "base2".data, "base5".data]

/-- Probe function induced by the C2 listing. -/
def c2Exists (n : Str) : Bool := c2Listing.contains n

/-- C2 (corrected claim): on the listing base, base1, base2, base5 the legacy
WMS-capabilities ranker returns base5 (highest numeric suffix), but the
verification used by the active systematic publish path,
`_verify_shapefile_creation`, probes the exact name first and returns base. -/
theorem adma_c2_theorem :
    detectActualLayerName c2Workspace c2Base c2WmsListing = ("base5".data) ∧
    verifyShapefileCreation c2Exists c2Base = some c2Base := by decide

/-- Counterexample to C2 as stated: with every candidate of the listing
working, the reconciliation of the systematic publish path returns the exact
match base, not base5. -/
theorem adma_c2_counterexample :
    verifyShapefileCreation c2Exists c2Base = some ("base".data) ∧
    ("base".data) ≠ ("base5".data) := by decide

/-! ## File records and shapefile component bundling -/

/-- Projection of the File model (models.py 129-176) onto the fields the
pipeline reads. -/
structure FileRec where
  name : Str
  owner : Nat
  folder : Option Nat
  isPublic : Bool := false
  isSpatial : Bool := false
  gisStatus : Str := []
  layerName : Option Str := none
deriving DecidableEq

/-- Component query shared by geoserver_manager.py 226-230, tasks.py 149-153
and gis_utils.py 639-643: same owner, name starting with the base name, same
folder. -/
def selectComponents (files : List FileRec) (owner : Nat) (folder : Option Nat)
    (base : Str) : List FileRec :=
  files.filter (fun f =>
    decide (f.owner = owner) && decide (f.folder = folder) &&
      base.isPrefixOf f.name)

/-- Python expression `'.' + comp.name.split('.')[-1].lower()`, guarded by the
name having at least two dot-separated parts (tasks.py 157-161,
geoserver_manager.py 236-239). -/
def extOf (name : Str) : Option Str :=
  if 2 ≤ (name.splitOn '.').length then
    some ('.' :: lowerStr ((name.splitOn '.').getLastD []))
  else none

/-- The mandatory shapefile components (tasks.py 146,
geoserver_manager.py 250). -/
def requiredExts : List Str := [".shp".data, ".shx".data, ".dbf".data]

/-- Extensions contributed by a component list (tasks.py 156-161). -/
def availableExts (comps : List FileRec) : List Str :=
  comps.filterMap (fun c => extOf c.name)

/-- Source expression `[ext for ext in required_exts if ext not in
available_exts]` (tasks.py 163, geoserver_manager.py 251). -/
def missingComponents (comps : List FileRec) : List Str :=
  requiredExts.filter (fun e => !(availableExts comps).contains e)

/-- Modelled from the spec: the filename stem (name up to the last dot, the
whole name when there is no dot), used to state the exact-stem matching rule
claimed in C4. -/
def stemOf (name : Str) : Str :=
  match (name.reverse).dropWhile (fun c => decide (c ≠ '.')) with
  | [] => name
  | _ :: rest => rest.reverse

/-- The stem is always an initial segment of the name. -/
theorem stemOf_prefix (name : Str) : (stemOf name).isPrefixOf name = true := by
  rw [List.isPrefixOf_iff_prefix]
  unfold stemOf
  cases hd : (name.reverse).dropWhile (fun c => decide (c ≠ '.')) with
  | nil => exact List.prefix_refl name
  | cons c rest =>
    have hsplit :=
      @List.takeWhile_append_dropWhile Char (fun c => decide (c ≠ '.')) name.reverse
    rw [hd] at hsplit
    refine ⟨c :: ((name.reverse).takeWhile (fun c => decide (c ≠ '.'))).reverse, ?_⟩
    conv_rhs => rw [← List.reverse_reverse name, ← hsplit]
    simp [List.reverse_append]

/-! ## Claim C4: component selection scope -/

/-- The main shapefile record in the C4 scenario. -/
def parcelsShp : FileRec :=
  { name := "parcels.shp".data, owner := 1, folder := some 7,
    isSpatial := true, gisStatus := "processed".data }

/-- Sibling spatial-index component. -/
def parcelsShx : FileRec := { name := "parcels.shx".data, owner := 1, folder := some 7 }

/-- Sibling attribute-table component. -/
def parcelsDbf : FileRec := { name := "parcels.dbf".data, owner := 1, folder := some 7 }

/-- A same-owner same-folder file whose name merely begins with the stem. -/
def parcelsBackupDbf : FileRec :=
  { name := "parcels_backup.dbf".data, owner := 1, folder := some 7 }

/-- The file table in the C4 scenario. -/
def c4Files : List FileRec := [parcelsShp, parcelsShx, parcelsDbf, parcelsBackupDbf]

/-- C4 (corrected claim): the bundle selection contains exactly the files of
the same owner, in the same folder, whose name starts with the asset's base
name (prefix matching); in particular every exact-stem file is selected, but
so is any file whose name merely begins with the stem. -/
theorem adma_c4_theorem (files : List FileRec) (owner : Nat)
    (folder : Option Nat) (base : Str) (f : FileRec) :
    (f ∈ selectComponents files owner folder base ↔
      f ∈ files ∧ f.owner = owner ∧ f.folder = folder ∧
        base.isPrefixOf f.name = true) ∧
    (f ∈ files → f.owner = owner → f.folder = folder → stemOf f.name = base →
      f ∈ selectComponents files owner folder base) := by
  constructor
  · simp [selectComponents, List.mem_filter, and_assoc]
  · intro hf ho hfo hs
    have hpre := stemOf_prefix f.name
    rw [hs] at hpre
    simp [selectComponents, List.mem_filter, hf, ho, hfo, hpre]

/-- Witness for C4: the amended characterization applied to the concrete
exact-stem component. -/
theorem adma_c4_witness :
    parcelsShp ∈ selectComponents c4Files 1 (some 7) ("parcels".data) :=
  (adma_c4_theorem c4Files 1 (some 7) ("parcels".data) parcelsShp).2
    (by decide) (by decide) (by decide) (by decide)

/-- Counterexample to C4 as stated: with the base name computed exactly as the
source computes it, the file parcels_backup.dbf is selected into the bundle
although its stem differs from the asset's stem. -/
theorem adma_c4_counterexample :
    parcelsBackupDbf ∈ selectComponents c4Files parcelsShp.owner
      parcelsShp.folder (strReplace (".shp".data) [] parcelsShp.name) ∧
    stemOf parcelsBackupDbf.name ≠ strReplace (".shp".data) [] parcelsShp.name := by
  decide

/-! ## Claim C8: the delayed shapefile publish task -/

/-- Status string written on processing success. -/
def processedS : Str := "processed".data

/-- Status string written on terminal failure. -/
def errorS : Str := "error".data

/-- The shapefile extension. -/
def shpExtS : Str := ".shp".data

/-- Observable effects of one run of `delayed_shapefile_publish_task`
(tasks.py 126-199): the status written back, the missing-extension list
appended to the processing log, whether a retry was scheduled, and whether
bundling was attempted. -/
structure DelayedTaskResult where
  newStatus : Option Str := none
  loggedMissing : Option (List Str) := none
  retryScheduled : Bool := false
  bundleAttempted : Bool := false
deriving DecidableEq

/-- Embedding of `delayed_shapefile_publish_task`.  A file no longer in the
processed state, or not a shapefile, results in a no-op (the source returns
early or delegates to the regular publish task). -/
def delayedShapefilePublishStep (f : FileRec) (allFiles : List FileRec)
    (retries maxRetries : Nat) (bundleOk : Bool) : DelayedTaskResult :=
  if f.gisStatus ≠ processedS then {}
  else if !(shpExtS.isSuffixOf (lowerStr f.name)) then {}
  else
    if missingComponents (selectComponents allFiles f.owner f.folder
        (strReplace shpExtS [] f.name)) ≠ [] then
      if retries < maxRetries then { retryScheduled := true }
      else
        { newStatus := some errorS,
          loggedMissing := some (missingComponents (selectComponents allFiles
            f.owner f.folder (strReplace shpExtS [] f.name))) }
    else if bundleOk then { bundleAttempted := true }
    else { newStatus := some errorS, bundleAttempted := true }

/-- C8 (confirmed): once the retry budget is exhausted and mandatory
components are still missing, the task writes status error, logs exactly the
missing extensions (the required extensions not available among the selected
components), schedules no further retry and does not attempt bundling. -/
theorem adma_c8_theorem (f : FileRec) (allFiles : List FileRec)
    (retries maxRetries : Nat) (bundleOk : Bool)
    (hstatus : f.gisStatus = processedS)
    (hshp : shpExtS.isSuffixOf (lowerStr f.name) = true)
    (hexhausted : maxRetries ≤ retries)
    (hmissing : missingComponents (selectComponents allFiles f.owner f.folder
      (strReplace shpExtS [] f.name)) ≠ []) :
    delayedShapefilePublishStep f allFiles retries maxRetries bundleOk =
      { newStatus := some errorS,
        loggedMissing := some (missingComponents (selectComponents allFiles
          f.owner f.folder (strReplace shpExtS [] f.name))) } ∧
    (∀ e : Str,
      e ∈ missingComponents (selectComponents allFiles f.owner f.folder
        (strReplace shpExtS [] f.name)) ↔
      e ∈ requiredExts ∧
        (availableExts (selectComponents allFiles f.owner f.folder
          (strReplace shpExtS [] f.name))).contains e = false) := by
  constructor
  · unfold delayedShapefilePublishStep
    rw [if_neg (by simp [hstatus]), if_neg (by simp [hshp]), if_pos hmissing,
      if_neg (by omega)]
  · intro e
    simp [missingComponents, List.mem_filter]

/-- Concrete shapefile record whose siblings never arrive. -/
def c8File : FileRec :=
  { name := "orphan.shp".data, owner := 2, folder := none,
    isSpatial := true, gisStatus := processedS }

/-- Witness for C8: after the fifth retry with only the .shp component
present, the status becomes error and the log records .shx and .dbf. -/
theorem adma_c8_witness :
    delayedShapefilePublishStep c8File [c8File] 5 5 true =
      { newStatus := some errorS,
        loggedMissing := some (missingComponents (selectComponents [c8File]
          c8File.owner c8File.folder (strReplace shpExtS [] c8File.name))) } :=
  (adma_c8_theorem c8File [c8File] 5 5 true (by decide) (by decide)
    (by decide) (by decide)).1

/-! ## Claim C3: what the systematic publish path stores -/

/-- Raster extensions dispatched to the coverage-store path
(geoserver_manager.py 124). -/
def rasterExts : List Str :=
  [".tif".data, ".tiff".data, ".geotiff".data, ".geotif".data]

/-- Embedding of `_publish_raster_with_temp_rename`
(geoserver_manager.py 168-208): on upload success the systematic name itself
is reported back as both the layer and the coverage-store name, with no check
against the external listing. -/
def publishRasterWithTempRename (systematicName : Str) (uploadOk : Bool) :
    Option (Str × Str) :=
  if uploadOk then some (systematicName, systematicName) else none

/-- Embedding of `_publish_shapefile_with_temp_rename`
(geoserver_manager.py 210-280): bundle the prefix-matched components, fail on
missing mandatory parts, upload, then verify the actually created name via
`_verify_shapefile_creation`. -/
def publishShapefileWithTempRename (systematicName : Str) (f : FileRec)
    (allFiles : List FileRec) (uploadOk : Bool) (layerWorks : Str → Bool) :
    Option (Str × Str) :=
  if missingComponents (selectComponents allFiles f.owner f.folder
      (strReplace shpExtS [] f.name)) ≠ [] then none
  else if uploadOk then
    match verifyShapefileCreation layerWorks systematicName with
    | some n => some (n, n)
    | none => none
  else none

/-- Embedding of `publish_file_to_geoserver` (geoserver_manager.py 88-166):
ensure the workspace, dispatch on the file extension, and on success return
the layer and datastore names that the caller stores on the file record
together with status published. -/
def publishFileToGeoserver (f : FileRec) (allFiles : List FileRec)
    (systematicName : Str) (workspaceOk uploadOk : Bool)
    (layerWorks : Str → Bool) : Option (Str × Str) :=
  if workspaceOk then
    match extOf f.name with
    | some e =>
      if rasterExts.contains e then
        publishRasterWithTempRename systematicName uploadOk
      else if e = shpExtS then
        publishShapefileWithTempRename systematicName f allFiles uploadOk
          layerWorks
      else none
    | none => none
  else none

/-- Soundness of the shapefile publish path: any stored name passed the
external probe. -/
theorem publishShapefileWithTempRename_sound (sName : Str) (f : FileRec)
    (allFiles : List FileRec) (upOk : Bool) (lw : Str → Bool) (n d : Str)
    (h : publishShapefileWithTempRename sName f allFiles upOk lw = some (n, d)) :
    lw n = true := by
  unfold publishShapefileWithTempRename at h
  by_cases hm : missingComponents (selectComponents allFiles f.owner f.folder
      (strReplace shpExtS [] f.name)) ≠ []
  · rw [if_pos hm] at h
    exact absurd h (by simp)
  · rw [if_neg hm] at h
    cases upOk with
    | false => simp at h
    | true =>
      rw [if_pos rfl] at h
      cases hv : verifyShapefileCreation lw sName with
      | none =>
        rw [hv] at h
        exact absurd h (by simp)
      | some n2 =>
        rw [hv] at h
        simp only [Option.some.injEq, Prod.mk.injEq] at h
        rw [← h.1]
        exact verifyShapefileCreation_sound lw sName n2 hv

/-- On a shapefile asset the publish dispatcher runs the shapefile path. -/
theorem publishFileToGeoserver_shp (f : FileRec) (allFiles : List FileRec)
    (s : Str) (upOk : Bool) (lw : Str → Bool)
    (hext : extOf f.name = some shpExtS) :
    publishFileToGeoserver f allFiles s true upOk lw =
      publishShapefileWithTempRename s f allFiles upOk lw := by
  unfold publishFileToGeoserver
  rw [if_pos rfl, hext]
  have hnotraster : shpExtS ∉ rasterExts := by decide
  simp [hnotraster]

/-- C3 (corrected claim): for shapefiles the stored layer name is verified
against the external service before being recorded, but for rasters the
Publisher records the optimistically generated systematic name whenever the
upload call succeeds, without any verification. -/
theorem adma_c3_theorem :
    (∀ (f : FileRec) (allFiles : List FileRec) (s : Str)
        (workspaceOk uploadOk : Bool) (layerWorks : Str → Bool) (n d : Str),
        extOf f.name = some shpExtS →
        publishFileToGeoserver f allFiles s workspaceOk uploadOk layerWorks =
          some (n, d) →
        layerWorks n = true) ∧
    (∀ s : Str, publishRasterWithTempRename s true = some (s, s)) := by
  constructor
  · intro f allFiles s wsOk upOk lw n d hext hpub
    cases wsOk with
    | false => simp [publishFileToGeoserver] at hpub
    | true =>
      rw [publishFileToGeoserver_shp f allFiles s upOk lw hext] at hpub
      exact publishShapefileWithTempRename_sound s f allFiles upOk lw n d hpub
  · intro s
    unfold publishRasterWithTempRename
    rw [if_pos rfl]

/-- Concrete shapefile asset for the C3 witness. -/
def c3ShpFile : FileRec :=
  { name := "roads.shp".data, owner := 4, folder := none,
    isSpatial := true, gisStatus := processedS }

/-- The C3 witness file table: the asset plus its mandatory siblings. -/
def c3ShpFiles : List FileRec :=
  [c3ShpFile,
   { name := "roads.shx".data, owner := 4, folder := none },
   { name := "roads.dbf".data, owner := 4, folder := none }]

/-- Systematic name generated for the C3 witness asset. -/
def c3SysV : Str := "adma_geo_4_r1".data

/-- External probe of the C3 witness: exactly the systematic name works. -/
def c3Probe (n : Str) : Bool := decide (n = c3SysV)

/-- Witness for C3: a successful shapefile publish stored a name that passes
the external probe. -/
theorem adma_c3_witness : c3Probe c3SysV = true :=
  adma_c3_theorem.1 c3ShpFile c3ShpFiles c3SysV true true c3Probe c3SysV c3SysV
    (by decide) (by decide)

/-- Concrete raster asset for the C3 counterexample. -/
def c3Raster : FileRec :=
  { name := "dem.tif".data, owner := 3, folder := none,
    isSpatial := true, gisStatus := processedS }

/-- Systematic name generated for the C3 counterexample asset. -/
def c3Sys : Str := "adma_geo_3_dem_1".data

/-- Counterexample to C3 as stated: it is not true that every successful
publish stores a name verified against the external service — the raster path
stores the systematic name even when no external probe would confirm it. -/
theorem adma_c3_counterexample :
    ¬ (∀ (f : FileRec) (allFiles : List FileRec) (s : Str) (uploadOk : Bool)
        (layerWorks : Str → Bool) (n d : Str),
        publishFileToGeoserver f allFiles s true uploadOk layerWorks =
          some (n, d) →
        layerWorks n = true) := by
  intro h
  have h2 := h c3Raster [] c3Sys true (fun _ => false) c3Sys c3Sys (by decide)
  simp at h2

/-! ## Claim C5: idempotence of the external publish calls -/

/-- HTTP methods of the GeoServer REST calls. -/
inductive HttpMethod
  | get
  | post
  | put
  | del
deriving DecidableEq

/-- One REST request: the method plus the path below the GeoServer base URL. -/
structure HttpReq where
  method : HttpMethod
  path : Str
deriving DecidableEq

/-- Path of the workspace-existence GET (gis_utils.py 28). -/
def workspaceGetPath (ws : Str) : Str := "/rest/workspaces/".data ++ ws

/-- Path of the workspace-creation POST (gis_utils.py 36). -/
def workspacesPostPath : Str := "/rest/workspaces".data

/-- Path of the coverage-store file-upload PUT (gis_utils.py 136). -/
def coverageUploadPath (ws store : Str) : Str :=
  ("/rest/workspaces/".data) ++ ws ++ ("/coveragestores/".data) ++ store ++
    ("/file.geotiff".data)

/-- Path of the post-upload coverage GET of `_configure_coverage_layer`
(gis_utils.py 171). -/
def coverageConfigPath (ws store : Str) : Str :=
  ("/rest/workspaces/".data) ++ ws ++ ("/coveragestores/".data) ++ store ++
    ("/coverages/".data) ++ store

/-- Path of the shapefile zip-upload PUT (gis_utils.py 229). -/
def datastoreUploadPath (ws store : Str) : Str :=
  ("/rest/workspaces/".data) ++ ws ++ ("/datastores/".data) ++ store ++
    ("/file.shp".data)

/-- Requests issued by `GeoServerAPI.create_workspace` (gis_utils.py 23-37):
an existence GET, then a creating POST only when the workspace is absent. -/
def createWorkspaceTrace (ws : Str) (wsExists : Bool) : List HttpReq :=
  { method := .get, path := workspaceGetPath ws } ::
    (if wsExists then [] else [{ method := .post, path := workspacesPostPath }])

/-- Requests issued by `create_coverage_store_from_file`
(gis_utils.py 131-165): an unconditional upload PUT, then on success the
configuration GET. -/
def createCoverageStoreFromFileTrace (ws store : Str) (uploadOk : Bool) :
    List HttpReq :=
  { method := .put, path := coverageUploadPath ws store } ::
    (if uploadOk then [{ method := .get, path := coverageConfigPath ws store }]
     else [])

/-- Requests issued by `upload_shapefile` (gis_utils.py 185-248): when the
required on-disk components exist, a single unconditional zip-upload PUT. -/
def uploadShapefileTrace (ws store : Str) (componentsPresent : Bool) :
    List HttpReq :=
  if componentsPresent then
    [{ method := .put, path := datastoreUploadPath ws store }]
  else []

/-- One raster publish flow: ensure the workspace, then upload the coverage
file (geoserver_manager.py 112-127 with gis_utils.py 131-165). -/
def publishRasterFlowTrace (ws store : Str) (wsExists uploadOk : Bool) :
    List HttpReq :=
  createWorkspaceTrace ws wsExists ++
    createCoverageStoreFromFileTrace ws store uploadOk

/-- Two successive raster publishes of the same systematic store name; after
the first flow the workspace exists. -/
def publishRasterTwiceTrace (ws store : Str) (wsExists ok1 ok2 : Bool) :
    List HttpReq :=
  publishRasterFlowTrace ws store wsExists ok1 ++
    publishRasterFlowTrace ws store true ok2

/-- Paths targeted by the PUT (create/upload) requests of a trace. -/
def putPaths (trace : List HttpReq) : List Str :=
  trace.filterMap (fun r => if r.method = HttpMethod.put then some r.path else none)

/-- C5 (corrected claim): the workspace is ensured with an existence check
(GET first, and no further request when it already exists), but the backing
store itself is created by an unconditional PUT with no prior existence
check; republishing is safe because every upload PUT of both publish runs
targets the single path determined by the systematic store name, so no second
backing store is addressed. -/
theorem adma_c5_theorem (ws store : Str) (wsExists ok1 ok2 : Bool) :
    (createWorkspaceTrace ws wsExists).head? =
      some { method := .get, path := workspaceGetPath ws } ∧
    createWorkspaceTrace ws true =
      [{ method := .get, path := workspaceGetPath ws }] ∧
    (∀ p ∈ putPaths (publishRasterTwiceTrace ws store wsExists ok1 ok2),
      p = coverageUploadPath ws store) ∧
    uploadShapefileTrace ws store true =
      [{ method := .put, path := datastoreUploadPath ws store }] := by
  refine ⟨rfl, rfl, ?_, rfl⟩
  intro p hp
  cases wsExists <;> cases ok1 <;> cases ok2 <;>
    simp [putPaths, publishRasterTwiceTrace, publishRasterFlowTrace,
      createWorkspaceTrace, createCoverageStoreFromFileTrace,
      List.filterMap_cons] at hp <;>
    tauto

/-- Witness for C5: in a concrete fresh double publish, the first uploaded
PUT path is the coverage-store path of the systematic name. -/
theorem adma_c5_witness :
    (putPaths (publishRasterTwiceTrace ("adma_geo".data) ("store_a".data)
        false true true)).headD [] =
      coverageUploadPath ("adma_geo".data) ("store_a".data) :=
  (adma_c5_theorem ("adma_geo".data) ("store_a".data) false true true).2.2.1 _
    (by decide)

/-- Counterexample to C5 as stated: in a fresh double publish no request
before the first PUT mentions the store at all (so no store existence check
precedes any upload), and the shapefile upload consists of a single PUT with
no GET whatsoever. -/
theorem adma_c5_counterexample :
    ((publishRasterTwiceTrace ("adma_geo".data) ("store_a".data) false true
        true).takeWhile
          (fun r => !(decide (r.method = HttpMethod.put)))).all
      (fun r => !(strContains r.path ("store_a".data))) = true ∧
    uploadShapefileTrace ("adma_geo".data) ("layer_b".data) true =
      [{ method := .put,
         path := datastoreUploadPath ("adma_geo".data) ("layer_b".data) }] ∧
    (∀ r ∈ uploadShapefileTrace ("adma_geo".data) ("layer_b".data) true,
      r.method ≠ HttpMethod.get) := by decide

/-! ## Maps and the layer-group composer (claims C6 and C7) -/

/-- Projection of MapLayer (models.py 534-585) onto the fields the composer
reads; `fileLayerName` and `fileWorkspace` are the referenced file's stored
geoserver_layer_name and geoserver_workspace. -/
structure MapLayerRec where
  layerOrder : Int
  isVisible : Bool := true
  fileLayerName : Option Str := none
  fileWorkspace : Option Str := none
  styleName : Option Str := none
deriving DecidableEq

/-- Projection of Map (models.py 327-400). -/
structure MapRec where
  mapName : Str
  layerGroupName : Str
  layers : List MapLayerRec
deriving DecidableEq

/-- Python `a or b` for an optional string field: the value when truthy
(present and nonempty), the default otherwise. -/
def pyOrStr (o : Option Str) (d : Str) : Str :=
  match o with
  | none => d
  | some s => if s = [] then d else s

/-- Ascending layer order, the key of `.order_by('layer_order')`. -/
def layerLe (a b : MapLayerRec) : Prop := a.layerOrder ≤ b.layerOrder

instance : DecidableRel layerLe := fun a b =>
  inferInstanceAs (Decidable (a.layerOrder ≤ b.layerOrder))

instance : IsTotal MapLayerRec layerLe :=
  ⟨fun a b => Int.le_total a.layerOrder b.layerOrder⟩

instance : IsTrans MapLayerRec layerLe :=
  ⟨fun _ _ _ h1 h2 => le_trans h1 h2⟩

/-- The queryset `map_obj.map_layers.filter(is_visible=True,
file__geoserver_layer_name__isnull=False).order_by('layer_order')`
(geoserver_layer_group_manager.py 52-55 and 102-105). -/
def visibleNamedLayers (m : MapRec) : List MapLayerRec :=
  (m.layers.filter (fun l => l.isVisible && l.fileLayerName.isSome)).insertionSort
    layerLe

/-- Source expression `f"{workspace}:{layer_name}"` with `workspace =
map_layer.geoserver_workspace or self.workspace`
(geoserver_layer_group_manager.py 212-214). -/
def fullLayerName (defaultWs : Str) (l : MapLayerRec) : Str :=
  pyOrStr l.fileWorkspace defaultWs ++ (":".data) ++ l.fileLayerName.getD []

/-- The composite definition submitted to the layer-group REST API
(geoserver_layer_group_manager.py 195-244); the constant world bounds of
`_calculate_bounds` are not modelled. -/
structure LayerGroupData where
  groupName : Str
  title : Str
  published : List Str
  styles : List Str
deriving DecidableEq

/-- Embedding of `_build_layer_group_data`. -/
def buildLayerGroupData (defaultWs : Str) (m : MapRec)
    (ls : List MapLayerRec) : LayerGroupData :=
  { groupName := m.layerGroupName, title := m.mapName,
    published := ls.map (fullLayerName defaultWs),
    styles := ls.map (fun l => pyOrStr l.styleName []) }

/-- External effect of one composer call. -/
inductive LayerGroupAction
  | createGroup (d : LayerGroupData)
  | updateGroup (d : LayerGroupData)
  | deleteGroup (groupName : Str)
  | reject (msg : Str)
deriving DecidableEq

/-- Embedding of `create_layer_group`
(geoserver_layer_group_manager.py 36-84): with no publishable layers the call
is rejected, otherwise the full definition is POSTed. -/
def createLayerGroup (defaultWs : Str) (m : MapRec) : LayerGroupAction :=
  if visibleNamedLayers m = [] then
    .reject ("No visible layers found in map".data)
  else .createGroup (buildLayerGroupData defaultWs m (visibleNamedLayers m))

/-- Embedding of `update_layer_group`
(geoserver_layer_group_manager.py 86-135): with no publishable layers the
remote group is deleted instead of updated; otherwise the complete current
definition is PUT. -/
def updateLayerGroup (defaultWs : Str) (m : MapRec) : LayerGroupAction :=
  if visibleNamedLayers m = [] then .deleteGroup m.layerGroupName
  else .updateGroup (buildLayerGroupData defaultWs m (visibleNamedLayers m))

/-- C6 (confirmed): when the current visible, externally named layer list is
empty, update deletes the remote composite, and an update action never
carries an empty layer list. -/
theorem adma_c6_theorem (defaultWs : Str) (m : MapRec) :
    (visibleNamedLayers m = [] →
      updateLayerGroup defaultWs m = .deleteGroup m.layerGroupName) ∧
    (∀ d : LayerGroupData,
      updateLayerGroup defaultWs m = .updateGroup d → d.published ≠ []) := by
  constructor
  · intro h
    unfold updateLayerGroup
    rw [if_pos h]
  · intro d hd
    unfold updateLayerGroup at hd
    by_cases h : visibleNamedLayers m = []
    · rw [if_pos h] at hd
      exact absurd hd (by simp)
    · rw [if_neg h] at hd
      cases hd
      simp only [buildLayerGroupData, ne_eq, List.map_eq_nil_iff]
      exact h

/-- A concrete map holding only an invisible layer. -/
def c6EmptyMap : MapRec :=
  { mapName := "empty overview".data, layerGroupName := "map_1_aaa".data,
    layers := [{ layerOrder := 0, isVisible := false,
                 fileLayerName := some ("l1".data) }] }

/-- Witness for C6: updating the map with no publishable layer issues the
delete of its remote group. -/
theorem adma_c6_witness :
    updateLayerGroup ("adma_geo".data) c6EmptyMap =
      LayerGroupAction.deleteGroup c6EmptyMap.layerGroupName :=
  (adma_c6_theorem ("adma_geo".data) c6EmptyMap).1 (by decide)

/-- C7 (confirmed): for a map with at least one publishable layer, create and
update both submit the built definition, whose published list holds the
fully-qualified names of exactly the visible externally named layers in
ascending layer order, and whose style list is the matching-position list of
style names (empty when unset) of the same layers, hence of equal length. -/
theorem adma_c7_theorem (defaultWs : Str) (m : MapRec)
    (h : visibleNamedLayers m ≠ []) :
    createLayerGroup defaultWs m =
      .createGroup (buildLayerGroupData defaultWs m (visibleNamedLayers m)) ∧
    updateLayerGroup defaultWs m =
      .updateGroup (buildLayerGroupData defaultWs m (visibleNamedLayers m)) ∧
    (buildLayerGroupData defaultWs m (visibleNamedLayers m)).published =
      (visibleNamedLayers m).map (fullLayerName defaultWs) ∧
    (buildLayerGroupData defaultWs m (visibleNamedLayers m)).styles =
      (visibleNamedLayers m).map (fun l => pyOrStr l.styleName []) ∧
    (buildLayerGroupData defaultWs m (visibleNamedLayers m)).styles.length =
      (buildLayerGroupData defaultWs m (visibleNamedLayers m)).published.length ∧
    List.Sorted layerLe (visibleNamedLayers m) ∧
    (visibleNamedLayers m).Perm
      (m.layers.filter (fun l => l.isVisible && l.fileLayerName.isSome)) := by
  refine ⟨?_, ?_, rfl, rfl, by simp [buildLayerGroupData], ?_, ?_⟩
  · unfold createLayerGroup
    rw [if_neg h]
  · unfold updateLayerGroup
    rw [if_neg h]
  · exact List.sorted_insertionSort layerLe _
  · exact List.perm_insertionSort layerLe _

/-- Scenario B layer A1 (order 0, default style). -/
def c7LayerA1 : MapLayerRec :=
  { layerOrder := 0, isVisible := true, fileLayerName := some ("a1_layer".data),
    fileWorkspace := some ("adma_geo".data) }

/-- Scenario B layer A2 (order 1, explicit style). -/
def c7LayerA2 : MapLayerRec :=
  { layerOrder := 1, isVisible := true, fileLayerName := some ("a2_layer".data),
    fileWorkspace := some ("adma_geo".data),
    styleName := some ("roads_style".data) }

/-- Scenario B map; the layers are stored out of order, the composer sorts. -/
def c7Map : MapRec :=
  { mapName := "Overview".data, layerGroupName := "map_1_ov".data,
    layers := [c7LayerA2, c7LayerA1] }

/-- Witness for C7: the theorem applied to the Scenario B map. -/
theorem adma_c7_witness :
    updateLayerGroup ("adma_geo".data) c7Map =
      LayerGroupAction.updateGroup
        (buildLayerGroupData ("adma_geo".data) c7Map (visibleNamedLayers c7Map)) ∧
    List.Sorted layerLe (visibleNamedLayers c7Map) :=
  ⟨(adma_c7_theorem ("adma_geo".data) c7Map (by decide)).2.1,
   (adma_c7_theorem ("adma_geo".data) c7Map (by decide)).2.2.2.2.2.1⟩

/-! ## Claim C9: which files may back a MapLayer -/

/-- Status string of an asset published to GeoServer. -/
def publishedS : Str := "published".data

/-- Link admissibility in the `create_map_view` POST handler
(map_views.py 152-168): the requested file must be spatial with a non-null
layer name, and be owned by the requester or public.  The published status is
not checked there. -/
def createMapLinkOk (requester : Nat) (f : FileRec) : Bool :=
  f.isSpatial && f.layerName.isSome &&
    (decide (f.owner = requester) || f.isPublic)

/-- Link admissibility in `add_layers_to_map` (map_views.py 436-451), which
additionally requires status published. -/
def addLayersLinkOk (requester : Nat) (f : FileRec) : Bool :=
  f.isSpatial && decide (f.gisStatus = publishedS) && f.layerName.isSome &&
    (decide (f.owner = requester) || f.isPublic)

/-- Files linked as MapLayers while creating a map
(map_views.py 150-172). -/
def createMapLayersLinked (requester : Nat) (selected : List FileRec) :
    List FileRec :=
  selected.filter (createMapLinkOk requester)

/-- Files linked as MapLayers by `add_layers_to_map` (map_views.py 435-474);
files already in the map are skipped. -/
def addLayersToMapLinked (requester : Nat) (selected existing : List FileRec) :
    List FileRec :=
  selected.filter (fun f => addLayersLinkOk requester f && !(existing.contains f))

/-- C9 (corrected claim): `add_layers_to_map` links only files with status
published and a non-null external layer name, but map creation enforces only
spatiality and a non-null layer name — the published status is not required
there. -/
theorem adma_c9_theorem :
    (∀ (requester : Nat) (selected existing : List FileRec) (f : FileRec),
        f ∈ addLayersToMapLinked requester selected existing →
        f.gisStatus = publishedS ∧ f.layerName.isSome = true) ∧
    (∀ (requester : Nat) (selected : List FileRec) (f : FileRec),
        f ∈ createMapLayersLinked requester selected →
        f.isSpatial = true ∧ f.layerName.isSome = true) := by
  constructor
  · intro r sel ex f hf
    have hc := (List.mem_filter.mp hf).2
    simp only [addLayersLinkOk, Bool.and_eq_true, decide_eq_true_eq] at hc
    exact ⟨by tauto, by tauto⟩
  · intro r sel f hf
    have hc := (List.mem_filter.mp hf).2
    simp only [createMapLinkOk, Bool.and_eq_true] at hc
    exact ⟨by tauto, by tauto⟩

/-- A published, externally named, spatial file. -/
def c9GoodFile : FileRec :=
  { name := "good.shp".data, owner := 1, folder := none, isSpatial := true,
    gisStatus := publishedS, layerName := some ("ws_good".data) }

/-- Witness for C9: the add-layers guarantee applied to a concrete link. -/
theorem adma_c9_witness :
    c9GoodFile.gisStatus = publishedS ∧ c9GoodFile.layerName.isSome = true :=
  adma_c9_theorem.1 1 [c9GoodFile] [] c9GoodFile (by decide)

/-- A spatial file carrying a stored layer name but status error. -/
def c9ErrorFile : FileRec :=
  { name := "broken.shp".data, owner := 1, folder := none, isSpatial := true,
    gisStatus := errorS, layerName := some ("ws_broken".data) }

/-- Counterexample to C9 as stated: map creation links a file whose status is
not published, so a reachable MapLayer violates the claimed invariant. -/
theorem adma_c9_counterexample :
    createMapLayersLinked 1 [c9ErrorFile] = [c9ErrorFile] ∧
    c9ErrorFile.gisStatus ≠ publishedS := by decide

/-! ## Claim C10: local deletion survives cleanup failure -/

/-- Outcome of one external cleanup call: it may succeed, report failure via
its return value, or raise. -/
inductive CleanupOutcome
  | ok
  | reportedFailure
  | raised
deriving DecidableEq

/-- A try/except wrapper as used by the delete overrides: a raised cleanup
produces a log line and execution continues; a returned failure flag is
ignored by the caller (models.py 184-205, 390-398). -/
def guardedCleanup : CleanupOutcome → List Str
  | .raised => ["cleanup failed".data]
  | _ => []

/-- Steps of an overridden delete method: a guarded step is wrapped in
try/except as in the source; a raw step would abort the remainder when it
raises (the source wraps every cleanup, this constructor keeps the semantics
honest); the removal step is the `super().delete()` call. -/
inductive DelStep
  | guarded (o : CleanupOutcome)
  | raw (o : CleanupOutcome)
  | removeLocal
deriving DecidableEq

/-- Run a delete method: whether the local record was removed, and the error
log lines.  An unguarded raise aborts all remaining steps. -/
def runDelete : List DelStep → Bool × List Str
  | [] => (false, [])
  | DelStep.guarded o :: rest =>
    ((runDelete rest).1, guardedCleanup o ++ (runDelete rest).2)
  | DelStep.raw o :: rest =>
    match o with
    | .raised => (false, ["uncaught exception".data])
    | _ => runDelete rest
  | DelStep.removeLocal :: rest => (true, (runDelete rest).2)

/-- Embedding of `File.delete` (models.py 181-208): guarded GeoServer cleanup
when the record is spatial with a stored layer name, guarded embedding
cleanup when a chroma id exists, then the unconditional local removal. -/
def fileDeleteProgram (f : FileRec) (hasChroma : Bool)
    (geo chroma : CleanupOutcome) : List DelStep :=
  (if f.isSpatial && f.layerName.isSome then [DelStep.guarded geo] else []) ++
    (if hasChroma then [DelStep.guarded chroma] else []) ++
    [DelStep.removeLocal]

/-- Embedding of `Map.delete` (models.py 388-400): guarded layer-group
cleanup when a group name is assigned, then the unconditional local
removal. -/
def mapDeleteProgram (m : MapRec) (geo : CleanupOutcome) : List DelStep :=
  (if m.layerGroupName ≠ [] then [DelStep.guarded geo] else []) ++
    [DelStep.removeLocal]

/-- C10 (confirmed): for every file and map record and every cleanup outcome,
including a cleanup that raises or reports failure, running the delete
override removes the local record. -/
theorem adma_c10_theorem :
    (∀ (f : FileRec) (hasChroma : Bool) (geo chroma : CleanupOutcome),
        (runDelete (fileDeleteProgram f hasChroma geo chroma)).1 = true) ∧
    (∀ (m : MapRec) (geo : CleanupOutcome),
        (runDelete (mapDeleteProgram m geo)).1 = true) := by
  constructor
  · intro f hc geo ch
    unfold fileDeleteProgram
    cases hfc : (f.isSpatial && f.layerName.isSome) <;> cases hc <;>
      simp [runDelete]
  · intro m geo
    unfold mapDeleteProgram
    by_cases h : m.layerGroupName ≠ [] <;> simp [h, runDelete]

end AdmaGeo

